import Mathlib

set_option maxHeartbeats 1000000

/-
Shallow embedding of the redis backend client (src/backends/redis/client.go)
and the supervisory wait loop of `main` (src/unnamed/part_000).

The redigo library calls are modelled by their observable behavior:
a connection answers each command with a reply value together with an
optional Go error, and the `redis.String` / `redis.Values` / `redis.Int` /
`redis.Strings` decoders are translated from redigo's reply helpers.
Go runtime panics (nil slice indexing, nil interface method calls,
closing a closed channel) are represented by explicit `panicked` outcomes,
and `log.Fatal` (which terminates the process) by explicit `fatal` outcomes.
-/

/--
Errors of the Go `error` kind that the redis layer distinguishes:
`errNil` models `redis.ErrNil` (the nil-reply / not-found error); `err`
models every other error (transport, protocol, type mismatch), carrying
its message.
-/
inductive GoErr where
  | errNil : GoErr
  | err (msg : String) : GoErr
deriving DecidableEq

/--
Reply values a redigo connection can produce: the nil reply, a string
reply (simple-string and bulk-string replies both arrive as Go strings
or byte slices and are collapsed here), an integer reply, an array
reply, and a redis error reply.
-/
inductive RValue where
  | nilv : RValue
  | str (s : String) : RValue
  | int (n : Int) : RValue
  | arr (vs : List RValue) : RValue
  | errv (msg : String) : RValue

/-- Runtime panic message for a nil slice index (Go: index out of range). -/
def oobMsg : String := "runtime error: index out of range"

/-- Runtime panic message for calling a method on a nil interface. -/
def nilDerefMsg : String := "runtime error: invalid memory address or nil pointer dereference"

/-- Model of `redis.String(reply, err)` from redigo. -/
def rString : RValue × Option GoErr → String × Option GoErr
  | (_, some e) => ("", some e)
  | (RValue.str s, none) => (s, none)
  | (RValue.nilv, none) => ("", some GoErr.errNil)
  | (RValue.errv m, none) => ("", some (GoErr.err m))
  | (_, none) => ("", some (GoErr.err "redigo: unexpected type for String"))

/-- Model of `redis.Values(reply, err)` from redigo. -/
def rValues : RValue × Option GoErr → List RValue × Option GoErr
  | (_, some e) => ([], some e)
  | (RValue.arr vs, none) => (vs, none)
  | (RValue.nilv, none) => ([], some GoErr.errNil)
  | (RValue.errv m, none) => ([], some (GoErr.err m))
  | (_, none) => ([], some (GoErr.err "redigo: unexpected type for Values"))

/-- Value of a decimal digit character, if it is one. -/
def digitVal? (c : Char) : Option Nat :=
  if '0' ≤ c ∧ c ≤ '9' then some (c.toNat - '0'.toNat) else none

/-- Accumulating decimal parse of a digit list; fails at a non-digit. -/
def digitsToNatAux : List Char → Nat → Option Nat
  | [], acc => some acc
  | c :: rest, acc =>
    match digitVal? c with
    | some d => digitsToNatAux rest (acc * 10 + d)
    | none => none

/--
Model of Go's `strconv.Atoi` / `strconv.ParseInt(s, 10, 64)`: an optional
sign followed by at least one decimal digit (overflow is ignored: the
database indices and scan cursors in play are small).
-/
def goAtoi (s : String) : Option Int :=
  match s.data with
  | [] => none
  | '-' :: rest =>
    if rest = [] then none else (digitsToNatAux rest 0).map (fun n => -(n : Int))
  | '+' :: rest =>
    if rest = [] then none else (digitsToNatAux rest 0).map (fun n => (n : Int))
  | l => (digitsToNatAux l 0).map (fun n => (n : Int))

/-- Model of `redis.Int(reply, err)` from redigo (bulk strings are parsed). -/
def rInt : RValue × Option GoErr → Int × Option GoErr
  | (_, some e) => (0, some e)
  | (RValue.int n, none) => (n, none)
  | (RValue.str s, none) =>
    match goAtoi s with
    | some n => (n, none)
    | none => (0, some (GoErr.err "strconv.ParseInt: invalid syntax"))
  | (RValue.nilv, none) => (0, some GoErr.errNil)
  | (RValue.errv m, none) => (0, some (GoErr.err m))
  | (_, none) => (0, some (GoErr.err "redigo: unexpected type for Int"))

/--
Element conversion of redigo's `Strings` slice helper: the result slice is
allocated at full length (zero value `""`), nil elements are skipped, and
the first element of an unexpected type stops the fill, leaving the
remaining entries `""` and reporting an error.
-/
def stringsFill : List RValue → List String × Option GoErr
  | [] => ([], none)
  | RValue.str s :: rest =>
    match stringsFill rest with
    | (l, e) => (s :: l, e)
  | RValue.nilv :: rest =>
    match stringsFill rest with
    | (l, e) => ("" :: l, e)
  | _ :: rest =>
    (List.replicate (rest.length + 1) "", some (GoErr.err "redigo: unexpected element type for Strings"))

/-- Model of `redis.Strings(reply, err)` from redigo. -/
def rStrings : RValue × Option GoErr → List String × Option GoErr
  | (_, some e) => ([], some e)
  | (RValue.arr vs, none) => stringsFill vs
  | (RValue.nilv, none) => ([], some GoErr.errNil)
  | (RValue.errv m, none) => ([], some (GoErr.err m))
  | (_, none) => ([], some (GoErr.err "redigo: unexpected type for Strings"))

/--
A live redis connection, modelled by the replies it gives to the commands
the client issues: `PING` (liveness probe), `GET key`, and
`SCAN cursor MATCH pattern COUNT 1000`.
-/
structure RedisConn where
  ping : RValue × Option GoErr
  doGet : String → RValue × Option GoErr
  doScan : Int → String → RValue × Option GoErr

/--
The environment a connection attempt runs in: which address strings are
existing filesystem paths (`os.Stat` succeeding), and the outcome of
`redis.Dial network address` with a database index and password option.
-/
structure Env where
  pathExists : String → Bool
  dial : String → String → Int → String → Except GoErr RedisConn

/-- The `Client` wrapper struct of the redis backend. -/
structure Client where
  client : Option RedisConn
  machines : List String
  password : String

/-- Outcome of one `tryConnect` loop iteration for a single address. -/
inductive AttemptOut where
  | conn (c : RedisConn) : AttemptOut
  | dialErr (e : GoErr) : AttemptOut
  | fatal (msg : String) : AttemptOut

/-- Outcome of `tryConnect`: a connection, or the pair (nil, last error)
where the error is `none` when the machine list was empty, or a fatal
process exit from `log.Fatal` on an unparsable database suffix. -/
inductive TCOut where
  | ok (conn : RedisConn) : TCOut
  | fail (e : Option GoErr) : TCOut
  | fatal (msg : String) : TCOut

/--
Model of `strings.Split(address, "/")` at the character level (the
separator at the call site is the single character `/`).
-/
def splitSlash : List Char → List (List Char)
  | [] => [[]]
  | '/' :: rest => [] :: splitSlash rest
  | c :: rest =>
    match splitSlash rest with
    | [] => [[c]]
    | g :: gs => (c :: g) :: gs

/-- String-level wrapper of `splitSlash`. -/
def goSplitSlash (s : String) : List String :=
  (splitSlash s.data).map String.mk

/-- The dial call at the end of a `tryConnect` iteration. -/
def doDial (env : Env) (network addr : String) (database : Int) (password : String) : AttemptOut :=
  match env.dial network addr database password with
  | Except.ok c => AttemptOut.conn c
  | Except.error e => AttemptOut.dialErr e

/--
One iteration of the `tryConnect` loop: infer the transport from
`os.Stat`, split the address on `/`, parse the database index when the
split has exactly two parts (`log.Fatal` on a parse failure), and dial
the part before the first slash.
-/
def attempt (env : Env) (password address : String) : AttemptOut :=
  let network := if env.pathExists address then "unix" else "tcp"
  match goSplitSlash address with
  | [a0, a1] =>
    match goAtoi a1 with
    | none => AttemptOut.fatal ("invalid address: " ++ address)
    | some db => doDial env network a0 db password
  | arr => doDial env network (arr.headD "") 0 password

/-- The `tryConnect` loop with the running `err` variable made explicit. -/
def tryConnectGo (env : Env) (password : String) : List String → Option GoErr → TCOut
  | [], last => TCOut.fail last
  | a :: rest, _last =>
    match attempt env password a with
    | AttemptOut.conn c => TCOut.ok c
    | AttemptOut.dialErr e => tryConnectGo env password rest (some e)
    | AttemptOut.fatal m => TCOut.fatal m

/-- Model of `tryConnect(machines, password)`. -/
def tryConnect (env : Env) (machines : List String) (password : String) : TCOut :=
  tryConnectGo env password machines none

/-- Outcome of `connectedClient`, carrying the updated wrapper state. -/
inductive CCOut where
  | ok (conn : RedisConn) (st : Client) : CCOut
  | nilConn (st : Client) : CCOut
  | fail (e : GoErr) (st : Client) : CCOut
  | panicked (msg : String) : CCOut
  | fatal (msg : String) : CCOut

/-- Go interface comparison `resp == "PONG"` on a reply value. -/
def isPong : RValue → Bool
  | RValue.str s => s = "PONG"
  | _ => false

/-- The probe condition `(err != nil && err == redis.ErrNil) || resp != "PONG"`. -/
def probeFailed (resp : RValue) (errOpt : Option GoErr) : Bool :=
  (decide (errOpt ≠ none) && decide (errOpt = some GoErr.errNil)) || !(isPong resp)

/--
The second half of `connectedClient`: `c.client` is nil, so one call to
`tryConnect` over the full machine list decides the outcome.
-/
def reconnect (env : Env) (c : Client) : CCOut :=
  match tryConnect env c.machines c.password with
  | TCOut.ok conn => CCOut.ok conn { c with client := some conn }
  | TCOut.fail none => CCOut.nilConn { c with client := none }
  | TCOut.fail (some e) => CCOut.fail e { c with client := none }
  | TCOut.fatal m => CCOut.fatal m

/--
Model of `connectedClient`: probe an existing session with PING; on a
failed probe the error is formatted with `err.Error()` — a nil `err`
there is a nil interface method call, i.e. a runtime panic — and the
session is invalidated and reconnected once via `tryConnect`.
-/
def connectedClient (env : Env) (c : Client) : CCOut :=
  match c.client with
  | some conn =>
    match conn.ping with
    | (resp, errOpt) =>
      if probeFailed resp errOpt then
        match errOpt with
        | none => CCOut.panicked nilDerefMsg
        | some _ => reconnect env { c with client := none }
      else CCOut.ok conn c
  | none => reconnect env c

/-- Outcome of `NewRedisClient`. -/
inductive NCOut where
  | ret (c : Client) (e : Option GoErr) : NCOut
  | fatal (msg : String) : NCOut

/--
Model of `NewRedisClient(machines, password)`: the wrapper struct is
always built first, its `client` field is then assigned from
`tryConnect`, and the wrapper is returned together with the connect
error (if any).
-/
def NewRedisClient (env : Env) (machines : List String) (password : String) : NCOut :=
  match tryConnect env machines password with
  | TCOut.ok conn => NCOut.ret { client := some conn, machines := machines, password := password } none
  | TCOut.fail e => NCOut.ret { client := none, machines := machines, password := password } e
  | TCOut.fatal m => NCOut.fatal m

/-- The key-value result map of `GetValues`, as the association list the
loop builds (Go map insertion overwrites an existing key). -/
abbrev Vars := List (String × String)

/-- Go map assignment `vars[k] = v`. -/
def insertVar (k v : String) : Vars → Vars
  | [] => [(k, v)]
  | (k2, v2) :: rest => if k2 = k then (k, v) :: rest else (k2, v2) :: insertVar k v rest

/--
Model of `strings.Replace(key, "/*", "", -1)`: every non-overlapping
occurrence of `/*` is removed in one left-to-right pass.
-/
def stripWildAux : List Char → List Char
  | [] => []
  | '/' :: '*' :: rest => stripWildAux rest
  | c :: rest => c :: stripWildAux rest

/-- String-level wrapper of `stripWildAux`. -/
def stripWild (s : String) : String :=
  String.mk (stripWildAux s.data)

/-- The scan pattern built from a key that had no value: the root key
becomes `/*`, every other key gets `/*` appended. -/
def normPattern (key : String) : String :=
  if key = "/" then "/*" else key ++ "/*"

/--
The inner loop over the matched names of one scan page: each item of the
`[]string` is passed through `redis.String` (which cannot fail on a Go
string, but the abort branch is kept as in the source) and then looked
up; the key is inserted only when that lookup succeeds, any lookup error
is ignored. `Sum.inr` is the `return vars, err` abort.
-/
def itemsLoop (conn : RedisConn) (vars : Vars) : List String → Vars ⊕ (Vars × GoErr)
  | [] => Sum.inl vars
  | item :: rest =>
    match rString (RValue.str item, none) with
    | (_, some e) => Sum.inr (vars, e)
    | (newKey, none) =>
      match rString (conn.doGet newKey) with
      | (value, none) => itemsLoop conn (insertVar newKey value vars) rest
      | (_, some _) => itemsLoop conn vars rest

/-- Outcome of one scan-loop iteration. -/
inductive StepOut where
  | next (vars : Vars) (idx : Int) : StepOut
  | fail (vars : Vars) (e : GoErr) : StepOut
  | panicked (msg : String) : StepOut

/--
The body of one scan iteration after the error check: `values[0]` and
`values[1]` are Go slice indexings and panic when out of bounds; the
cursor comes from `redis.Int(values[0], nil)` with its error discarded,
the page's names from `redis.Strings(values[1], nil)` with its error
discarded.
-/
def scanBody (conn : RedisConn) (vars : Vars) (values : List RValue) : StepOut :=
  match values.get? 0 with
  | none => StepOut.panicked oobMsg
  | some v0 =>
    match values.get? 1 with
    | none => StepOut.panicked oobMsg
    | some v1 =>
      match itemsLoop conn vars (rStrings (v1, none)).1 with
      | Sum.inl vars2 => StepOut.next vars2 (rInt (v0, none)).1
      | Sum.inr (vars2, e) => StepOut.fail vars2 e

/--
One iteration of the pagination loop: issue the scan, abort on an error
other than `redis.ErrNil` (an `ErrNil` falls through to the body with
the nil decoded slice), then run the body.
-/
def scanStep (conn : RedisConn) (pat : String) (vars : Vars) (idx : Int) : StepOut :=
  match rValues (conn.doScan idx pat) with
  | (values, some e) =>
    if e = GoErr.errNil then scanBody conn vars values else StepOut.fail vars e
  | (values, none) => scanBody conn vars values

/-- Outcome of the per-key processing of `GetValues`. -/
inductive LoopOut where
  | ok (vars : Vars) : LoopOut
  | fail (vars : Vars) (e : GoErr) : LoopOut
  | panicked (msg : String) : LoopOut
  | fuel : LoopOut
deriving DecidableEq

/--
The `for` pagination loop of `GetValues`, with an explicit fuel bound on
the number of scan calls (the source loop has no bound of its own; it
exits when the returned cursor is 0, or by return/panic).
-/
def scanLoop : Nat → RedisConn → String → Vars → Int → LoopOut
  | 0, _, _, _, _ => LoopOut.fuel
  | fuel + 1, conn, pat, vars, idx =>
    match scanStep conn pat vars idx with
    | StepOut.fail vars2 e => LoopOut.fail vars2 e
    | StepOut.panicked m => LoopOut.panicked m
    | StepOut.next vars2 idx2 =>
      if idx2 = 0 then LoopOut.ok vars2 else scanLoop fuel conn pat vars2 idx2

/--
The body of `GetValues` for one requested key: strip the wildcard
markers, point-lookup the key, and on `redis.ErrNil` fall back to the
paginated scan on the normalized pattern, starting at cursor 0.
-/
def processKey (fuel : Nat) (conn : RedisConn) (vars : Vars) (key0 : String) : LoopOut :=
  match rString (conn.doGet (stripWild key0)) with
  | (value, none) => LoopOut.ok (insertVar (stripWild key0) value vars)
  | (_, some e) =>
    if e = GoErr.errNil then scanLoop fuel conn (normPattern (stripWild key0)) vars 0
    else LoopOut.fail vars e

/-- Outcome of `GetValues`. -/
inductive GVOut where
  | ret (vars : Vars) (err : Option GoErr) : GVOut
  | panicked (msg : String) : GVOut
  | fuel : GVOut
  | fatal (msg : String) : GVOut
deriving DecidableEq

/-- The key loop of `GetValues` over the requested keys, on an already
obtained connection, starting from the map built so far. -/
def getValuesConn (fuel : Nat) (conn : RedisConn) (vars : Vars) : List String → GVOut
  | [] => GVOut.ret vars none
  | key :: rest =>
    match processKey fuel conn vars key with
    | LoopOut.ok vars2 => getValuesConn fuel conn vars2 rest
    | LoopOut.fail vars2 e => GVOut.ret vars2 (some e)
    | LoopOut.panicked m => GVOut.panicked m
    | LoopOut.fuel => GVOut.fuel

/-- The key loop when `connectedClient` handed back a nil connection with
a nil error: the first `Do` on the nil interface panics; with no keys the
empty map is returned. -/
def nilConnRun : List String → GVOut
  | [] => GVOut.ret [] none
  | _ :: _ => GVOut.panicked nilDerefMsg

/--
Model of `GetValues(keys)`: obtain a connection via `connectedClient`,
return the nil map on a non-`ErrNil` connection error, and run the key
loop (an `ErrNil` connection error falls through to the nil connection).
-/
def GetValues (fuel : Nat) (env : Env) (c : Client) (keys : List String) : GVOut :=
  match connectedClient env c with
  | CCOut.ok conn _ => getValuesConn fuel conn [] keys
  | CCOut.nilConn _ => nilConnRun keys
  | CCOut.fail e _ =>
    if e = GoErr.errNil then nilConnRun keys else GVOut.ret [] (some e)
  | CCOut.panicked m => GVOut.panicked m
  | CCOut.fatal m => GVOut.fatal m

/-- The cursor the pagination loop would continue with after a scan at
cursor `idx`: the first element of the decoded reply through
`redis.Int`, and 0 when the decoded slice is empty (where the loop
itself panics instead of continuing). -/
def nextCursor (conn : RedisConn) (pat : String) (idx : Int) : Int :=
  match (rValues (conn.doScan idx pat)).1.get? 0 with
  | none => 0
  | some v0 => (rInt (v0, none)).1

/-- The cursor chain of repeated scans starting at cursor `c`. -/
def cursorIterFrom (conn : RedisConn) (pat : String) (c : Int) : Nat → Int
  | 0 => c
  | n + 1 => cursorIterFrom conn pat (nextCursor conn pat c) n

/-- The cursor chain of repeated scans starting at cursor 0. -/
def cursorIter (conn : RedisConn) (pat : String) (n : Nat) : Int :=
  cursorIterFrom conn pat 0 n

/-- Select events the supervisory wait loop of `main` can process: an
error report, a delivered OS signal, and the observation of the closed
done channel. -/
inductive SupEvent where
  | errEvent (msg : String) : SupEvent
  | sigEvent : SupEvent
  | doneEvent : SupEvent
deriving DecidableEq

/-- State of the supervisory loop: whether `doneChan` has been closed. -/
structure SupState where
  doneClosed : Bool
deriving DecidableEq

/-- Outcome of the supervisory loop. -/
inductive SupOut where
  | running (s : SupState) : SupOut
  | exited (code : Nat) : SupOut
  | panicked (msg : String) : SupOut
deriving DecidableEq

/--
One select iteration of the wait loop in `main`: an error is logged and
the loop continues; a signal closes `doneChan` — a Go `close` of an
already closed channel panics; the done case fires only once `doneChan`
is closed (receiving on the open channel blocks, so that case is never
selected and is modelled as a no-op) and exits with status 0.
-/
def supStep (s : SupState) : SupEvent → SupOut
  | SupEvent.errEvent _ => SupOut.running s
  | SupEvent.sigEvent =>
    if s.doneClosed then SupOut.panicked "close of closed channel"
    else SupOut.running { doneClosed := true }
  | SupEvent.doneEvent =>
    if s.doneClosed then SupOut.exited 0 else SupOut.running s

/-- The wait loop run over a finite schedule of selected events. -/
def supRun (s : SupState) : List SupEvent → SupOut
  | [] => SupOut.running s
  | e :: rest =>
    match supStep s e with
    | SupOut.running s2 => supRun s2 rest
    | out => out

/-
Concrete connections and environments used to evaluate the model at
specific inputs.
-/

/-- An environment in which no address is a filesystem path and every
dial attempt is refused. -/
def env0 : Env := {
  pathExists := fun _ => false
  dial := fun _ _ _ _ => Except.error (GoErr.err "connection refused") }

/-- A healthy connection answering every lookup with the nil reply. -/
def wConn : RedisConn := {
  ping := (RValue.str "PONG", none)
  doGet := fun _ => (RValue.nilv, none)
  doScan := fun _ _ => (RValue.nilv, none) }

/-- An environment in which only the address "good" accepts a dial. -/
def envW : Env := {
  pathExists := fun _ => false
  dial := fun _ addr _ _ =>
    if addr = "good" then Except.ok wConn else Except.error (GoErr.err "refused") }

/-- An environment that records, in the dial error message, the network,
address and database index each dial attempt received. -/
def recEnv : Env := {
  pathExists := fun p => p = "/var/run/store.sock"
  dial := fun network addr db _ =>
    Except.error (GoErr.err (network ++ "|" ++ addr ++ "|" ++ toString db)) }

/-- A connection whose liveness probe answers "FOO" with a nil error. -/
def badPingConn : RedisConn := {
  ping := (RValue.str "FOO", none)
  doGet := fun _ => (RValue.nilv, none)
  doScan := fun _ _ => (RValue.nilv, none) }

/-- A connection whose liveness probe fails with a transport error (the
reply is nil, as redigo returns on a send/receive failure). -/
def deadPingConn : RedisConn := {
  ping := (RValue.nilv, some (GoErr.err "broken pipe"))
  doGet := fun _ => (RValue.nilv, none)
  doScan := fun _ _ => (RValue.nilv, none) }

/-- An environment whose every dial attempt yields `wConn`. -/
def envOkDial : Env := {
  pathExists := fun _ => false
  dial := fun _ _ _ _ => Except.ok wConn }

/-- A connection under which the key "/a" has no value, the scan on
"/a/*" matches "/a/k1" and "/a/k2" in one page, the follow-up lookup of
"/a/k1" succeeds and the follow-up lookup of "/a/k2" fails with a
transport error. -/
def c1conn : RedisConn := {
  ping := (RValue.str "PONG", none)
  doGet := fun k =>
    if k = "/a/k1" then (RValue.str "v1", none)
    else if k = "/a/k2" then (RValue.nilv, some (GoErr.err "i/o timeout"))
    else (RValue.nilv, none)
  doScan := fun _ pat =>
    if pat = "/a/*" then
      (RValue.arr [RValue.str "0", RValue.arr [RValue.str "/a/k1", RValue.str "/a/k2"]], none)
    else (RValue.arr [RValue.str "0", RValue.arr []], none) }

/-- A connection whose every lookup and every scan fails with a distinct
transport error. -/
def wcConn : RedisConn := {
  ping := (RValue.str "PONG", none)
  doGet := fun _ => (RValue.nilv, some (GoErr.err "boom"))
  doScan := fun _ _ => (RValue.nilv, some (GoErr.err "scanboom")) }

/-- A connection under which "/config/" has no value and the scan on the
pattern "/config//*" yields two pages (cursor 0 to 7 to 0) matching
three keys, each with a value. -/
def c3conn : RedisConn := {
  ping := (RValue.str "PONG", none)
  doGet := fun k =>
    if k = "/config//a" then (RValue.str "1", none)
    else if k = "/config//b" then (RValue.str "2", none)
    else if k = "/config//c" then (RValue.str "3", none)
    else (RValue.nilv, none)
  doScan := fun idx pat =>
    if pat = "/config//*" then
      if idx = 0 then
        (RValue.arr [RValue.str "7", RValue.arr [RValue.str "/config//a", RValue.str "/config//b"]], none)
      else (RValue.arr [RValue.str "0", RValue.arr [RValue.str "/config//c"]], none)
    else (RValue.arr [RValue.str "0", RValue.arr []], none) }

/-- A connection that distinguishes the two candidate patterns: the scan
matches "/config//a" under the pattern "/config//*" and matches nothing
under any other pattern. -/
def c3cConn : RedisConn := {
  ping := (RValue.str "PONG", none)
  doGet := fun k =>
    if k = "/config//a" then (RValue.str "va", none) else (RValue.nilv, none)
  doScan := fun _ pat =>
    if pat = "/config//*" then
      (RValue.arr [RValue.str "0", RValue.arr [RValue.str "/config//a"]], none)
    else (RValue.arr [RValue.str "0", RValue.arr []], none) }

/-- A connection holding values both at "/a/b" (the key with every
wildcard marker removed) and at "/a/*/b" (the key as requested). -/
def c4conn : RedisConn := {
  ping := (RValue.str "PONG", none)
  doGet := fun k =>
    if k = "/a/b" then (RValue.str "v", none)
    else if k = "/a/*/b" then (RValue.str "w", none)
    else (RValue.nilv, none)
  doScan := fun _ _ => (RValue.arr [RValue.str "0", RValue.arr []], none) }

/-- A connection whose scan pagination runs cursor 0 to 5 to 0 with no
matches. -/
def c8conn : RedisConn := {
  ping := (RValue.str "PONG", none)
  doGet := fun _ => (RValue.nilv, none)
  doScan := fun idx _ =>
    if idx = 0 then (RValue.arr [RValue.str "5", RValue.arr []], none)
    else (RValue.arr [RValue.str "0", RValue.arr []], none) }

/-- A connection whose every lookup misses and whose every scan answers
the nil reply, which decodes to `redis.ErrNil`. -/
def nilScanConn : RedisConn := {
  ping := (RValue.str "PONG", none)
  doGet := fun _ => (RValue.nilv, none)
  doScan := fun _ _ => (RValue.nilv, none) }

/-
Theorems settling the claims.
-/

/--
C2: the claim says any liveness-probe reply other than "PONG" invalidates
the session and triggers one reconnect attempt. The code instead formats
the probe error with `err.Error()` before invalidating; when the probe
returned a non-"PONG" reply with a nil error, that call dereferences a
nil interface and panics, so the session is neither invalidated nor
reconnected. The transport-error and nil-reply-error probe outcomes do
invalidate and reconnect exactly once, and a "PONG" reply with nil error
returns the session unchanged.
-/
theorem c2_probe_behavior :
    connectedClient envOkDial { client := some badPingConn, machines := ["h"], password := "" } =
      CCOut.panicked nilDerefMsg ∧
    connectedClient envOkDial { client := some wConn, machines := ["h"], password := "" } =
      CCOut.ok wConn { client := some wConn, machines := ["h"], password := "" } ∧
    connectedClient envOkDial { client := some deadPingConn, machines := ["h"], password := "" } =
      CCOut.ok wConn { client := some wConn, machines := ["h"], password := "" } :=
  ⟨rfl, rfl, rfl⟩

/--
C3 counterexample: the claim says the pattern for the key "/config/"
becomes exactly "/config/*". The code appends "/*" to the stripped key,
which for the trailing-slash key "/config/" yields "/config//*" (a
double slash), and the scan is issued with that double-slash pattern:
under a connection whose scan matches only under "/config//*", the match
is found.
-/
theorem c3_counterexample :
    normPattern (stripWild "/config/") = "/config//*" ∧
    ("/config//*" : String) ≠ "/config/*" ∧
    getValuesConn 9 c3cConn [] ["/config/"] = GVOut.ret [("/config//a", "va")] none := by
  refine ⟨rfl, by decide, rfl⟩

/--
C3 (amended): `GetValues(["/config/"])` first issues a point lookup of
"/config/"; on not-found it rewrites the pattern to "/config//*" (the
key with "/*" appended; the root key "/" becomes the universal wildcard
"/*"), paginates the scan to completion across multiple pages, and
returns a map from every matched absolute key to its fetched value.
-/
theorem c3_example_run :
    normPattern "/" = "/*" ∧
    normPattern "/config/" = "/config//*" ∧
    getValuesConn 9 c3conn [] ["/config/"] =
      GVOut.ret [("/config//a", "1"), ("/config//b", "2"), ("/config//c", "3")] none :=
  ⟨rfl, rfl, rfl⟩

/--
C4 counterexample: the claim says only a trailing "/*" is stripped and a
non-trailing "/*" is preserved in the key used for the point lookup. For
the requested key "/a/*/b" the code looks up "/a/b": under a connection
holding "v" at "/a/b" and "w" at "/a/*/b", the fetch returns the entry
for "/a/b".
-/
theorem c4_counterexample :
    getValuesConn 1 c4conn [] ["/a/*/b"] = GVOut.ret [("/a/b", "v")] none ∧
    c4conn.doGet "/a/*/b" = (RValue.str "w", none) ∧
    stripWild "/a/*/b" = "/a/b" :=
  ⟨rfl, rfl, rfl⟩

/--
C5: the claim (and the spec) says one interrupt signal closes the done
channel exactly once and exits with status 0, and a second signal never
panics or double-closes. In the code the signal case unconditionally
closes `doneChan`, so the schedule signal-then-done exits 0, but the
schedule signal-then-signal closes the already closed channel and
panics.
-/
theorem c5_double_signal :
    supRun ⟨false⟩ [SupEvent.sigEvent, SupEvent.doneEvent] = SupOut.exited 0 ∧
    supRun ⟨false⟩ [SupEvent.sigEvent, SupEvent.sigEvent] =
      SupOut.panicked "close of closed channel" := by
  decide

/--
C7: the claim says "127.0.0.1:6399/2" selects the tcp transport with
database 2 dialing "127.0.0.1:6399" (which the code does), and that the
existing path "/var/run/store.sock" selects the unix transport with
database 0 and dials that socket path. The code splits the address on
"/" and dials the part before the first slash, which for an absolute
path is the empty string: the recorded dial is `unix||0`, not a dial of
the socket path.
-/
theorem c7_address_interpretation :
    tryConnect recEnv ["127.0.0.1:6399/2"] "pw" =
      TCOut.fail (some (GoErr.err "tcp|127.0.0.1:6399|2")) ∧
    tryConnect recEnv ["/var/run/store.sock"] "pw" =
      TCOut.fail (some (GoErr.err "unix||0")) ∧
    ("unix||0" : String) ≠ "unix|/var/run/store.sock|0" := by
  refine ⟨rfl, rfl, by decide⟩

/--
C9: the claim says the reads of the scan reply's first and second
elements are in bounds for every reply the backend can produce,
including the nil reply decoding to `redis.ErrNil`. The nil scan reply
decodes to the empty slice with error `ErrNil`; the `ErrNil` check lets
it through, and the read of `values[0]` is out of bounds: the fetch
panics.
-/
theorem c9_nil_scan_panics :
    (rValues (nilScanConn.doScan 0 (normPattern "/k"))).2 = some GoErr.errNil ∧
    getValuesConn 1 nilScanConn [] ["/k"] = GVOut.panicked oobMsg :=
  ⟨rfl, rfl⟩

/--
C6 counterexample: the claim says that for every non-empty endpoint list,
tryConnect either returns the first successfully dialed session or nil
with the last dial error. For the list ["x/y"] (a "/"-suffix that is not
an integer) the code instead calls `log.Fatal` while parsing the
database index and the process terminates: neither claimed outcome
occurs.
-/
theorem c6_counterexample :
    tryConnect env0 ["x/y"] "" = TCOut.fatal "invalid address: x/y" ∧
    (∀ e, TCOut.fatal "invalid address: x/y" ≠ TCOut.fail e) ∧
    (∀ c, TCOut.fatal "invalid address: x/y" ≠ TCOut.ok c) :=
  ⟨rfl, fun _ h => TCOut.noConfusion h, fun _ h => TCOut.noConfusion h⟩

/--
C10 counterexample: the claim says NewRedisClient always returns a
non-nil wrapper for every endpoint list. For the list ["x/y"] the
database-suffix parse inside tryConnect calls `log.Fatal` and the
process terminates before NewRedisClient can return anything.
-/
theorem c10_counterexample :
    NewRedisClient env0 ["x/y"] "" = NCOut.fatal "invalid address: x/y" ∧
    (∀ c e, NCOut.fatal "invalid address: x/y" ≠ NCOut.ret c e) :=
  ⟨rfl, fun _ _ h => NCOut.noConfusion h⟩

/--
C1 counterexample: the claim says the single silent-drop case is a
matched key vanishing (not-found) between scan-match and follow-up
lookup. Under `c1conn` the follow-up lookup of the matched key "/a/k2"
fails with the transport error "i/o timeout" — not the not-found error —
and the fetch still completes with no error, silently omitting the key.
-/
theorem c1_counterexample :
    getValuesConn 9 c1conn [] ["/a"] = GVOut.ret [("/a/k1", "v1")] none ∧
    (rString (c1conn.doGet "/a/k2")).2 = some (GoErr.err "i/o timeout") ∧
    GoErr.err "i/o timeout" ≠ GoErr.errNil := by
  refine ⟨rfl, rfl, by decide⟩

/--
C1 (amended): any error other than `redis.ErrNil` from the initial point
lookup of a requested key, or from a scan call at any cursor, aborts the
fetch immediately, returning the partial map built so far together with
that error; a matched key whose follow-up point lookup fails with ANY
error — not only the not-found error — is silently omitted and the loop
continues.
-/
theorem c1_abort_and_drop :
    (∀ (fuel : Nat) (conn : RedisConn) (vars : Vars) (key : String) (e : GoErr),
        (rString (conn.doGet (stripWild key))).2 = some e → e ≠ GoErr.errNil →
        processKey fuel conn vars key = LoopOut.fail vars e) ∧
    (∀ (fuel : Nat) (conn : RedisConn) (pat : String) (vars : Vars) (idx : Int) (e : GoErr),
        (rValues (conn.doScan idx pat)).2 = some e → e ≠ GoErr.errNil →
        scanLoop (fuel + 1) conn pat vars idx = LoopOut.fail vars e) ∧
    (∀ (fuel : Nat) (conn : RedisConn) (vars vars2 : Vars) (key : String)
        (rest : List String) (e : GoErr),
        processKey fuel conn vars key = LoopOut.fail vars2 e →
        getValuesConn fuel conn vars (key :: rest) = GVOut.ret vars2 (some e)) ∧
    (∀ (conn : RedisConn) (vars : Vars) (item : String) (rest : List String) (e : GoErr),
        (rString (conn.doGet item)).2 = some e →
        itemsLoop conn vars (item :: rest) = itemsLoop conn vars rest) := by
  refine ⟨?_, ?_, ?_, ?_⟩
  · intro fuel conn vars key e h hne
    rcases hp : rString (conn.doGet (stripWild key)) with ⟨v, er⟩
    rw [hp] at h
    simp only at h
    subst h
    simp [processKey, hp, hne]
  · intro fuel conn pat vars idx e h hne
    rcases hv : rValues (conn.doScan idx pat) with ⟨vals, er⟩
    rw [hv] at h
    simp only at h
    subst h
    simp [scanLoop, scanStep, hv, hne]
  · intro fuel conn vars vars2 key rest e h
    simp [getValuesConn, h]
  · intro conn vars item rest e h
    rcases hg : rString (conn.doGet item) with ⟨v, er⟩
    rw [hg] at h
    simp only at h
    subst h
    simp only [itemsLoop, show rString (RValue.str item, none) = (item, none) from rfl, hg]

/-- Witness for C1's theorem at concrete inputs. -/
theorem c1_witness :
    processKey 0 wcConn [] "k" = LoopOut.fail [] (GoErr.err "boom") ∧
    scanLoop 1 wcConn "p" [] 0 = LoopOut.fail [] (GoErr.err "scanboom") ∧
    getValuesConn 0 wcConn [] ["k"] = GVOut.ret [] (some (GoErr.err "boom")) ∧
    itemsLoop wcConn [] ["i"] = itemsLoop wcConn [] [] :=
  ⟨c1_abort_and_drop.1 0 wcConn [] "k" (GoErr.err "boom") rfl (by decide),
   c1_abort_and_drop.2.1 0 wcConn "p" [] 0 (GoErr.err "scanboom") rfl (by decide),
   c1_abort_and_drop.2.2.1 0 wcConn [] [] "k" [] (GoErr.err "boom") rfl,
   c1_abort_and_drop.2.2.2 wcConn [] "i" [] (GoErr.err "boom") rfl⟩

/--
C10 (amended): whenever tryConnect returns (no endpoint address triggers
the fatal database-suffix parse), NewRedisClient returns the wrapper
with the machine list and password stored: on connect success the
session is installed with a nil error, on connect failure the wrapper is
returned alongside the connect error with a nil session, and a later
`connectedClient` call on that nil-session wrapper retries the
connection over the full endpoint list instead of operating on a nil
receiver.
-/
theorem c10_wrapper :
    (∀ (env : Env) (machines : List String) (pw : String) (conn : RedisConn),
        tryConnect env machines pw = TCOut.ok conn →
        NewRedisClient env machines pw =
          NCOut.ret { client := some conn, machines := machines, password := pw } none) ∧
    (∀ (env : Env) (machines : List String) (pw : String) (e : Option GoErr),
        tryConnect env machines pw = TCOut.fail e →
        NewRedisClient env machines pw =
          NCOut.ret { client := none, machines := machines, password := pw } e) ∧
    (∀ (env : Env) (machines : List String) (pw : String) (conn : RedisConn),
        tryConnect env machines pw = TCOut.ok conn →
        connectedClient env { client := none, machines := machines, password := pw } =
          CCOut.ok conn { client := some conn, machines := machines, password := pw }) := by
  refine ⟨?_, ?_, ?_⟩
  · intro env machines pw conn h
    simp [NewRedisClient, h]
  · intro env machines pw e h
    simp [NewRedisClient, h]
  · intro env machines pw conn h
    simp [connectedClient, reconnect, h]

/-- Witness for C10's theorem at concrete inputs. -/
theorem c10_witness :
    NewRedisClient envW ["good"] "" =
      NCOut.ret { client := some wConn, machines := ["good"], password := "" } none ∧
    NewRedisClient env0 ["m"] "" =
      NCOut.ret { client := none, machines := ["m"], password := "" }
        (some (GoErr.err "connection refused")) ∧
    connectedClient envW { client := none, machines := ["good"], password := "" } =
      CCOut.ok wConn { client := some wConn, machines := ["good"], password := "" } :=
  ⟨c10_wrapper.1 envW ["good"] "" wConn rfl,
   c10_wrapper.2.1 env0 ["m"] "" (some (GoErr.err "connection refused")) rfl,
   c10_wrapper.2.2 envW ["good"] "" wConn rfl⟩

/-- Skipping a prefix of failing dial attempts only changes the running
last-error accumulator of the `tryConnect` loop. -/
theorem tryConnectGo_skip (env : Env) (pw : String) :
    ∀ (pre rest : List String) (last0 : Option GoErr),
      (∀ b ∈ pre, ∃ e, attempt env pw b = AttemptOut.dialErr e) →
      ∃ last1, tryConnectGo env pw (pre ++ rest) last0 = tryConnectGo env pw rest last1 := by
  intro pre
  induction pre with
  | nil => exact fun rest last0 _ => ⟨last0, rfl⟩
  | cons a pre ih =>
    intro rest last0 hall
    obtain ⟨e, he⟩ := hall a (by simp)
    obtain ⟨last1, h1⟩ := ih rest (some e) (fun b hb => hall b (by simp [hb]))
    refine ⟨last1, ?_⟩
    simpa [tryConnectGo, he] using h1

/--
C6 (amended): provided every attempted endpoint's address parses (an
address with exactly one "/" whose suffix is not an integer instead
terminates the process via log.Fatal), tryConnect returns the session of
the first endpoint (in listed order) whose dial succeeds, without
attempting later endpoints; if every endpoint's dial fails, it returns
nil together with the error observed on the last attempted endpoint.
-/
theorem c6_endpoint_order (env : Env) (pw : String) :
    (∀ (pre post : List String) (a : String) (conn : RedisConn),
        (∀ b ∈ pre, ∃ e, attempt env pw b = AttemptOut.dialErr e) →
        attempt env pw a = AttemptOut.conn conn →
        tryConnect env (pre ++ a :: post) pw = TCOut.ok conn) ∧
    (∀ (pre : List String) (last : String) (e : GoErr),
        (∀ b ∈ pre, ∃ e2, attempt env pw b = AttemptOut.dialErr e2) →
        attempt env pw last = AttemptOut.dialErr e →
        tryConnect env (pre ++ [last]) pw = TCOut.fail (some e)) := by
  constructor
  · intro pre post a conn hall ha
    obtain ⟨last1, hskip⟩ := tryConnectGo_skip env pw pre (a :: post) none hall
    unfold tryConnect
    rw [hskip]
    simp [tryConnectGo, ha]
  · intro pre last e hall hl
    obtain ⟨last1, hskip⟩ := tryConnectGo_skip env pw pre [last] none hall
    unfold tryConnect
    rw [hskip]
    simp [tryConnectGo, hl]

/-- Witness for C6's theorem at concrete inputs. -/
theorem c6_witness :
    attempt envW "" "bad" = AttemptOut.dialErr (GoErr.err "refused") ∧
    tryConnect envW (["bad"] ++ "good" :: []) "" = TCOut.ok wConn ∧
    tryConnect envW ([] ++ ["bad"]) "" = TCOut.fail (some (GoErr.err "refused")) :=
  ⟨rfl,
   (c6_endpoint_order envW "").1 ["bad"] [] "good" wConn
     (fun b hb => ⟨GoErr.err "refused", by
        have hb2 : b = "bad" := by simpa using hb
        rw [hb2]
        rfl⟩) rfl,
   (c6_endpoint_order envW "").2 [] "bad" (GoErr.err "refused")
     (fun b hb => by simp at hb) rfl⟩
/-- A successful scan iteration continues with the cursor decoded from
the reply's first element. -/
theorem scanStep_next_cursor (conn : RedisConn) (pat : String) (vars vars2 : Vars)
    (idx idx2 : Int) (h : scanStep conn pat vars idx = StepOut.next vars2 idx2) :
    idx2 = nextCursor conn pat idx := by
  unfold scanStep at h
  unfold nextCursor
  rcases hv : rValues (conn.doScan idx pat) with ⟨values, errOpt⟩
  rw [hv] at h
  simp only
  have hbody : scanBody conn vars values = StepOut.next vars2 idx2 := by
    cases errOpt with
    | none => simpa using h
    | some e =>
      simp only at h
      by_cases he : e = GoErr.errNil
      · simpa [he] using h
      · rw [if_neg he] at h
        exact absurd h (fun hh => StepOut.noConfusion hh)
  clear h
  unfold scanBody at hbody
  cases h0 : values.get? 0 with
  | none =>
    rw [h0] at hbody
    exact absurd hbody (fun hh => StepOut.noConfusion hh)
  | some v0 =>
    rw [h0] at hbody
    simp only at hbody
    simp only
    cases h1 : values.get? 1 with
    | none =>
      rw [h1] at hbody
      simp only at hbody
      exact absurd hbody (fun hh => StepOut.noConfusion hh)
    | some v1 =>
      rw [h1] at hbody
      simp only at hbody
      cases hil : itemsLoop conn vars (rStrings (v1, none)).1 with
      | inl vars3 =>
        rw [hil] at hbody
        simp only at hbody
        injection hbody with ha hb
        exact hb.symm
      | inr p =>
        rcases p with ⟨vars3, e2⟩
        rw [hil] at hbody
        exact absurd hbody (fun hh => StepOut.noConfusion hh)

/-- If the cursor chain from cursor `c` returns to 0 within `k` scan
calls and at least `k` scan calls of fuel remain, the pagination loop
does not run out of fuel. -/
theorem scanLoop_no_fuel (conn : RedisConn) (pat : String) :
    ∀ (k : Nat) (c : Int) (vars : Vars) (fuel : Nat), 1 ≤ k → k ≤ fuel →
      cursorIterFrom conn pat c k = 0 → scanLoop fuel conn pat vars c ≠ LoopOut.fuel := by
  intro k
  induction k with
  | zero => intro c vars fuel h1 _ _; exact absurd h1 (by omega)
  | succ k ih =>
    intro c vars fuel h1 h2 hiter
    obtain ⟨f, rfl⟩ : ∃ f, fuel = f + 1 := ⟨fuel - 1, by omega⟩
    rw [scanLoop]
    cases hs : scanStep conn pat vars c with
    | fail vars2 e => simp
    | panicked m => simp
    | next vars2 idx2 =>
      simp only
      by_cases hi : idx2 = 0
      · simp [hi]
      · rw [if_neg hi]
        have hnc : idx2 = nextCursor conn pat c :=
          scanStep_next_cursor conn pat vars vars2 c idx2 hs
        have hiter2 : cursorIterFrom conn pat idx2 k = 0 := by
          rw [hnc]
          simpa [cursorIterFrom] using hiter
        rcases Nat.eq_zero_or_pos k with hk | hk
        · exfalso
          rw [hk] at hiter2
          simp [cursorIterFrom] at hiter2
          exact hi hiter2
        · exact ih idx2 vars2 f hk (by omega) hiter2

/--
C8: under the precondition that the scan cursor chain started at 0
returns to 0 within ceil(matchCount / 1000) + 1 calls, the pagination
loop of GetValues terminates for every pattern, issuing at most
ceil(matchCount / 1000) + 1 scan calls (the fuel bound counts exactly
one unit per scan call issued, so not exhausting that fuel is the bound
on the calls).
-/
theorem c8_pagination_terminates (conn : RedisConn) (pat : String) (vars : Vars)
    (matchCount k : Nat) (h1 : 1 ≤ k) (h2 : k ≤ (matchCount + 999) / 1000 + 1)
    (h3 : cursorIter conn pat k = 0) :
    scanLoop ((matchCount + 999) / 1000 + 1) conn pat vars 0 ≠ LoopOut.fuel :=
  scanLoop_no_fuel conn pat k 0 vars ((matchCount + 999) / 1000 + 1) h1 h2 h3

/-- Witness for C8's theorem at a concrete two-page pagination. -/
theorem c8_witness :
    (1 ≤ 2 ∧ 2 ≤ (1000 + 999) / 1000 + 1 ∧ cursorIter c8conn "/x/*" 2 = 0) ∧
    scanLoop ((1000 + 999) / 1000 + 1) c8conn "/x/*" [] 0 ≠ LoopOut.fuel :=
  ⟨⟨by decide, by decide, rfl⟩,
   c8_pagination_terminates c8conn "/x/*" [] 1000 2 (by decide) (by decide) rfl⟩

/--
C4 (amended): for every requested key, EVERY occurrence of "/*" in the
key — trailing or not — is removed (one left-to-right non-overlapping
pass) before the direct point lookup, and the stripped key is the one
looked up and inserted on success.
-/
theorem c4_strip_everywhere :
    (∀ (fuel : Nat) (conn : RedisConn) (vars : Vars) (key v : String),
        rString (conn.doGet (stripWild key)) = (v, none) →
        processKey fuel conn vars key = LoopOut.ok (insertVar (stripWild key) v vars)) ∧
    stripWild "/a/*/b" = "/a/b" ∧
    stripWild "/config/*" = "/config" := by
  refine ⟨?_, rfl, rfl⟩
  intro fuel conn vars key v h
  simp [processKey, h]

/-- Witness for C4's theorem at a concrete input. -/
theorem c4_witness :
    processKey 1 c4conn [] "/a/*/b" = LoopOut.ok [("/a/b", "v")] :=
  c4_strip_everywhere.1 1 c4conn [] "/a/*/b" "v" rfl
